import Mathlib

/-
Verification of the video-generation pipeline orchestration core of the
faceless-youtube-factory repository (backend/app/graph and the TTS text
sanitizer of backend/app/services/tts_service.py).

Each Python stage function is shallowly embedded as a pure Lean function.
External collaborators (LLM text generation, TTS synthesis, image synthesis,
database persistence) are abstracted as explicit parameters carrying their
per-call outcomes, exactly at the call sites where the Python code awaits
them; everything the Python code computes itself is translated directly.
Python dicts are modelled as insertion-ordered association lists, floats as
exact rationals, and raised exceptions as `Option`-valued collaborator
results (`none` = the call raised).
-/

set_option autoImplicit false

namespace Faceless

/- ### Python string helpers -/

/-- Boolean test that `pre` is an initial segment of the second list. -/
def listStartsWith : List Char → List Char → Bool
  | [], _ => true
  | _ :: _, [] => false
  | a :: as, b :: bs => a == b && listStartsWith as bs

/-- Boolean substring test on character lists: models the Python `sub in s`
operator on strings. -/
def listContainsSub (sub : List Char) : List Char → Bool
  | [] => listStartsWith sub []
  | c :: rest => listStartsWith sub (c :: rest) || listContainsSub sub rest

/-- Models the Python `sub in s` operator on strings. -/
def strContainsSub (s sub : String) : Bool :=
  listContainsSub sub.data s.data

/-- Models Python `str.lower()` (the patterns matched against in this
code base are ASCII, where `Char.toLower` agrees with Python). -/
def pyLower (s : String) : String :=
  ⟨s.data.map Char.toLower⟩

/- ### The TTS text sanitizer (backend/app/services/tts_service.py,
`sanitize_text_for_tts`) -/

/-- Python regex `\s` with `re.UNICODE`: the Unicode whitespace class. -/
def pyIsSpace (c : Char) : Bool :=
  c.toNat == 0x20 || (0x9 ≤ c.toNat && c.toNat ≤ 0xd) ||
  (0x1c ≤ c.toNat && c.toNat ≤ 0x1f) || c.toNat == 0x85 || c.toNat == 0xa0 ||
  c.toNat == 0x1680 || (0x2000 ≤ c.toNat && c.toNat ≤ 0x200a) ||
  c.toNat == 0x2028 || c.toNat == 0x2029 || c.toNat == 0x202f ||
  c.toNat == 0x205f || c.toNat == 0x3000

/-- The control-character class removed by the second substitution:
`[\x00-\x1f\x7f-\x9f]`, i.e. U+0000 - U+001F and U+007F - U+009F. -/
def isCtrlChar (c : Char) : Bool :=
  c.toNat ≤ 0x1f || (0x7f ≤ c.toNat && c.toNat ≤ 0x9f)

/-- The punctuation characters kept by the first substitution's character
class: `.,!?;:'"()-` and U+2013 (en dash), U+2014 (em dash), U+2026
(horizontal ellipsis). -/
def keepPunct : List Char :=
  ['.', ',', '!', '?', ';', ':', Char.ofNat 39, Char.ofNat 34, '(', ')', '-',
   Char.ofNat 0x2013, Char.ofNat 0x2014, Char.ofNat 0x2026]

/-- The character class kept by the first substitution,
`[^\w\s.,!?;:'"()\-–—…À-ɏ]` complemented: word characters (the
regex `\w`, passed in as the predicate `w` because its full Unicode extent
is a property of the Python regex engine), whitespace, the kept punctuation,
and the accented range U+00C0 - U+024F. -/
def keepCharClass (w : Char → Bool) (c : Char) : Bool :=
  w c || pyIsSpace c || keepPunct.contains c ||
  (0xC0 ≤ c.toNat && c.toNat ≤ 0x24F)

/-- Models `re.sub(r'\s+', ' ', text)`: every maximal run of whitespace
characters is replaced by a single space.  The flag records whether the
previous character belonged to a whitespace run. -/
def collapseWs : Bool → List Char → List Char
  | _, [] => []
  | inRun, c :: rest =>
    if pyIsSpace c then
      if inRun then collapseWs true rest
      else ' ' :: collapseWs true rest
    else c :: collapseWs false rest

/-- Models Python `str.strip()`: remove leading and trailing whitespace. -/
def pyStrip (l : List Char) : List Char :=
  ((l.dropWhile pyIsSpace).reverse.dropWhile pyIsSpace).reverse

/-- The first substitution of `sanitize_text_for_tts`:
`re.sub(r'[^\w\s.,!?;:\'"()\-–—…À-ɏ]', '', text)`. -/
def removeNonKeep (w : Char → Bool) (text : List Char) : List Char :=
  text.filter (keepCharClass w)

/-- The second substitution: `re.sub(r'[\x00-\x1f\x7f-\x9f]', '', text)`. -/
def removeCtrl (text : List Char) : List Char :=
  text.filter (fun c => !isCtrlChar c)

/-- `text.replace('&', 'and')`. -/
def replaceAmp (text : List Char) : List Char :=
  text.flatMap (fun c => if c == '&' then ['a', 'n', 'd'] else [c])

/-- `text.replace('<', '')`. -/
def removeLt (text : List Char) : List Char :=
  text.filter (fun c => !(c == '<'))

/-- `text.replace('>', '')`. -/
def removeGt (text : List Char) : List Char :=
  text.filter (fun c => !(c == '>'))

/-- Shallow embedding of `sanitize_text_for_tts` (tts_service.py lines
18-53), parameterised by the regex `\w` word-character predicate `w`.
Steps in source order: the falsy-input early return, the keep-class filter,
control-character removal, whitespace collapsing, the SSML replacements
(`&` to `and`, `<` and `>` removed), strip, and the non-empty guard. -/
def sanitize_text_for_tts (w : Char → Bool) (text : List Char) : List Char :=
  if text = [] then []
  else
    let t7 := pyStrip (removeGt (removeLt (replaceAmp
      (collapseWs false (removeCtrl (removeNonKeep w text))))))
    if t7 = [] then ['.', '.', '.'] else t7

/-- The constraint the Python regex `\w` class actually satisfies: word
characters are never whitespace, never control characters, and none of
`<`, `>`, `&`.  All theorems about the sanitizer hold for every word-class
predicate with this property. -/
def WordClassOK (w : Char → Bool) : Prop :=
  ∀ c, w c = true →
    pyIsSpace c = false ∧ isCtrlChar c = false ∧ c ≠ '<' ∧ c ≠ '>' ∧ c ≠ '&'

/-- The ASCII fragment of the regex `\w` class (`[0-9A-Za-z_]`), used as a
concrete instance of the word-class predicate. -/
def asciiWordChar (c : Char) : Bool :=
  (0x30 ≤ c.toNat && c.toNat ≤ 0x39) || (0x41 ≤ c.toNat && c.toNat ≤ 0x5a) ||
  (0x61 ≤ c.toNat && c.toNat ≤ 0x7a) || c.toNat == 0x5f

/-- No two adjacent characters are both whitespace. -/
def NoDoubleWs (l : List Char) : Prop :=
  l.Chain' (fun a b => ¬(pyIsSpace a = true ∧ pyIsSpace b = true))

/- ### Data model (backend/app/graph/state.py and backend/app/models) -/

/-- `ProjectStatus` from backend/app/models/enums.py. -/
inductive ProjectStatus where
  | draft
  | generating_script
  | casting
  | generating_audio
  | generating_video
  | completed
  | uploading_youtube
  | published
  | failed
deriving DecidableEq, Repr

/-- A validated scene of script content: `{speaker, line, duration}`.
Durations are exact rationals standing for the Python floats. -/
structure Scene where
  speaker : String
  line : String
  duration : ℚ
deriving DecidableEq, Repr

/-- A scene as it arrives from the script-generation collaborator, before
validation: the `speaker` and `line` keys may be absent. -/
structure RawScene where
  speaker : Option String
  line : Option String
  duration : Option ℚ
deriving DecidableEq, Repr

/-- A script document as it arrives from the script-generation collaborator:
the top-level `scenes` key may be absent. -/
structure RawScript where
  scenes : Option (List RawScene)
deriving DecidableEq, Repr

/-- A validated script document (`script_json` after the script stage
succeeds): a non-empty list of validated scenes. -/
structure Script where
  scenes : List Scene
deriving DecidableEq, Repr

/-- A voice descriptor as stored in cast assignments:
`{voice_id, pitch, rate}`. -/
structure VoiceSettings where
  voice_id : String
  pitch : String
  rate : String
deriving DecidableEq, Repr

/-- One entry of the parsed casting-LLM response: each key may be absent
(`data.get(...)` with a default in the source). -/
structure RawVoiceData where
  voice_id : Option String
  pitch : Option String
  rate : Option String
deriving DecidableEq, Repr

/-- The pipeline state (`GraphState` of backend/app/graph/state.py).
Python dicts become insertion-ordered association lists; `progress` is an
exact rational. -/
structure GraphState where
  project_id : String
  user_id : String
  script_prompt : String
  auto_upload : Bool
  image_mode : String
  scenes_per_image : Nat
  background_image_url : Option String
  script_json : Option Script
  cast_list : Option (List (String × VoiceSettings))
  audio_files : List String
  audio_scene_indices : List Int
  image_files : List String
  image_scene_indices : List Int
  image_prompts : List String
  video_path : Option String
  youtube_video_id : Option String
  errors : List String
  retry_count : Nat
  current_step : String
  progress : ℚ
deriving DecidableEq, Repr

/-- The initial state built by `run_pipeline` (pipeline.py lines 152-179):
all produced fields empty or null, `retry_count = 0`, `progress = 0.0`. -/
def initialState (project_id user_id script_prompt : String)
    (auto_upload : Bool) (image_mode : String) (scenes_per_image : Nat)
    (background_image_url : Option String) : GraphState where
  project_id := project_id
  user_id := user_id
  script_prompt := script_prompt
  auto_upload := auto_upload
  image_mode := image_mode
  scenes_per_image := scenes_per_image
  background_image_url := background_image_url
  script_json := none
  cast_list := none
  audio_files := []
  audio_scene_indices := []
  image_files := []
  image_scene_indices := []
  image_prompts := []
  video_path := none
  youtube_video_id := none
  errors := []
  retry_count := 0
  current_step := "initializing"
  progress := 0

/- ### Script stage (backend/app/graph/nodes/script_writer.py) -/

/-- `MAX_RETRIES` from script_writer.py. -/
def MAX_RETRIES : Nat := 3

/-- The per-scene validation of script_writer.py lines 46-48: every scene
must carry both a `speaker` and a `line` key. -/
def validScene (s : RawScene) : Bool :=
  s.speaker.isSome && s.line.isSome

/-- Filling of the default duration (script_writer.py lines 50-51): a scene
without a `duration` key gets 3.0. -/
def fillDefaults (l : List RawScene) : List Scene :=
  l.map (fun s =>
    { speaker := s.speaker.getD "", line := s.line.getD "",
      duration := s.duration.getD 3 })

/-- Shallow embedding of `script_writer_node` (script_writer.py lines
19-101).  `gen` is the outcome of the `generate_script` collaborator
(`none` = the call raised); `persist_ok` abstracts the database block of
lines 54-72 (`false` = that block raised — note that in the source as
written this block always raises a `NameError` because of the `Projec`
typo on line 59; the persistence effect itself is out of the model).  Any
exception lands in the `except` arm of lines 83-99: append one error,
increment the retry counter, and leave `script_json` untouched. -/
def script_writer_node (gen : Option RawScript) (persist_ok : Bool)
    (st : GraphState) : GraphState :=
  let st := { st with current_step := "generating_script" }
  let fail := fun (st : GraphState) =>
    { st with errors := st.errors ++ ["Script generation failed"],
              retry_count := st.retry_count + 1 }
  match gen with
  | none => fail st
  | some raw =>
    match raw.scenes with
    | none => fail st
    | some [] => fail st
    | some scs =>
      if scs.all validScene && persist_ok then
        { st with script_json := some { scenes := fillDefaults scs },
                  progress := 0.2 }
      else fail st

/-- Shallow embedding of `should_continue_after_script` (script_writer.py
lines 103-120; in the source this function body is nested after the node's
unconditional `return`, a defect — the pipeline imports it as the
continuation predicate and its body is modelled here). -/
def should_continue_after_script (st : GraphState) : String :=
  if (match st.script_json with
      | some sj => !sj.scenes.isEmpty
      | none => false) then
    "casting_director"
  else if MAX_RETRIES ≤ st.retry_count then
    "end"
  else
    "script_writer"

/-- Driver for the script-stage self-loop of the pipeline graph
(pipeline.py lines 63-71): invoke the node, consult the predicate, loop on
"script_writer".  Returns the state, the number of node invocations, and
the route chosen when the loop exits.  `fuel` bounds the recursion; the
sentinel route "fuel" is a driver artifact that is never reached with
enough fuel. -/
def run_script_phase (gen : Nat → Option RawScript) (persist_ok : Bool) :
    Nat → GraphState → Nat → GraphState × Nat × String
  | 0, st, n => (st, n, "fuel")
  | fuel + 1, st, n =>
    let st2 := script_writer_node (gen n) persist_ok st
    if should_continue_after_script st2 = "script_writer" then
      run_script_phase gen persist_ok fuel st2 (n + 1)
    else
      (st2, n + 1, should_continue_after_script st2)

/- ### Casting stage (backend/app/graph/nodes/casting_director.py) -/

/-- The `voice_id` fields of `AVAILABLE_VOICES` (casting_director.py lines
17-223), in source order.  The other catalog fields (name, gender, locale,
style) feed only the LLM prompt text, which is behind the abstracted
collaborator, so they are not modelled. -/
def AVAILABLE_VOICE_IDS : List String := [
  "en-US-AriaNeural",
  "en-US-GuyNeural",
  "en-US-JennyNeural",
  "en-US-DavisNeural",
  "en-US-AmberNeural",
  "en-US-AnaNeural",
  "en-US-AndrewNeural",
  "en-US-BrandonNeural",
  "en-US-ChristopherNeural",
  "en-US-CoraNeural",
  "en-US-ElizabethNeural",
  "en-US-EricNeural",
  "en-US-JacobNeural",
  "en-US-JaneNeural",
  "en-US-JasonNeural",
  "en-US-MichelleNeural",
  "en-US-MonicaNeural",
  "en-US-NancyNeural",
  "en-US-RogerNeural",
  "en-US-SaraNeural",
  "en-US-SteffanNeural",
  "en-US-TonyNeural",
  "en-GB-RyanNeural",
  "en-GB-SoniaNeural",
  "en-GB-ThomasNeural",
  "en-GB-LibbyNeural",
  "en-GB-MaisieNeural",
  "en-GB-AlfieNeural",
  "en-GB-BellaNeural",
  "en-GB-ElliotNeural",
  "en-GB-EthanNeural",
  "en-GB-HollieNeural",
  "en-GB-NoahNeural",
  "en-GB-OliviaNeural",
  "en-AU-NatashaNeural",
  "en-AU-WilliamNeural",
  "en-AU-AnnetteNeural",
  "en-AU-CarlyNeural",
  "en-AU-DarrenNeural",
  "en-AU-DuncanNeural",
  "en-AU-ElsieNeural",
  "en-IN-NeerjaNeural",
  "en-IN-PrabhatNeural",
  "en-IE-ConnorNeural",
  "en-IE-EmilyNeural",
  "en-CA-ClaraNeural",
  "en-CA-LiamNeural",
  "en-NZ-MitchellNeural",
  "en-NZ-MollyNeural",
  "en-SG-LunaNeural",
  "en-SG-WayneNeural",
  "en-ZA-LeahNeural",
  "en-ZA-LukeNeural",
  "en-HK-SamNeural",
  "en-HK-YanNeural",
  "en-KE-AsiliaNeural",
  "en-KE-ChilembaNeural",
  "en-TZ-ElimuNeural",
  "en-TZ-ImaniNeural",
  "fil-PH-AngeloNeural",
  "fil-PH-BlessicaNeural",
  "es-ES-AlvaroNeural",
  "es-ES-ElviraNeural",
  "es-ES-AbrilNeural",
  "es-MX-DaliaNeural",
  "es-MX-JorgeNeural",
  "es-MX-BeatrizNeural",
  "fr-FR-DeniseNeural",
  "fr-FR-HenriNeural",
  "fr-FR-AlainNeural",
  "fr-CA-AntoineNeural",
  "fr-CA-SylvieNeural",
  "fr-CA-JeanNeural",
  "de-DE-KatjaNeural",
  "de-DE-ConradNeural",
  "de-DE-AmalaNeural",
  "ja-JP-NanamiNeural",
  "ja-JP-KeitaNeural",
  "ja-JP-AoiNeural",
  "ko-KR-SunHiNeural",
  "ko-KR-InJoonNeural",
  "ko-KR-BongJinNeural",
  "zh-CN-XiaoxiaoNeural",
  "zh-CN-YunxiNeural",
  "zh-CN-YunjianNeural",
  "zh-TW-HsiaoChenNeural",
  "zh-TW-YunJheNeural",
  "zh-TW-HsiaoYuNeural",
  "zh-HK-HiuMaanNeural",
  "zh-HK-WanLungNeural",
  "zh-HK-HiuGaaiNeural",
  "pt-BR-FranciscaNeural",
  "pt-BR-AntonioNeural",
  "pt-BR-BrendaNeural",
  "pt-PT-DuarteNeural",
  "pt-PT-RaquelNeural",
  "pt-PT-FernandaNeural",
  "it-IT-ElsaNeural",
  "it-IT-DiegoNeural",
  "it-IT-BenignoNeural",
  "ru-RU-SvetlanaNeural",
  "ru-RU-DmitryNeural",
  "ru-RU-DariyaNeural",
  "hi-IN-SwaraNeural",
  "hi-IN-MadhurNeural",
  "ar-SA-ZariyahNeural",
  "ar-SA-HamedNeural",
  "ar-EG-SalmaNeural",
  "ar-EG-ShakirNeural",
  "nl-NL-ColetteNeural",
  "nl-NL-MaartenNeural",
  "nl-NL-FennaNeural",
  "pl-PL-AgnieszkaNeural",
  "pl-PL-MarekNeural",
  "pl-PL-ZofiaNeural",
  "sv-SE-SofieNeural",
  "sv-SE-MattiasNeural",
  "sv-SE-HilleviNeural",
  "th-TH-PremwadeeNeural",
  "th-TH-NiwatNeural",
  "th-TH-AcharaNeural",
  "vi-VN-HoaiMyNeural",
  "vi-VN-NamMinhNeural",
  "id-ID-GadisNeural",
  "id-ID-ArdiNeural",
  "ms-MY-YasminNeural",
  "ms-MY-OsmanNeural",
  "tr-TR-EmelNeural",
  "tr-TR-AhmetNeural"]

/-- `FALLBACK_VOICES` (casting_director.py lines 227-232). -/
def FALLBACK_VOICES : List VoiceSettings :=
  [⟨"en-US-GuyNeural", "+0Hz", "+0%"⟩,
   ⟨"en-US-AriaNeural", "+0Hz", "+0%"⟩,
   ⟨"en-US-DavisNeural", "+0Hz", "+0%"⟩,
   ⟨"en-US-JennyNeural", "+0Hz", "+0%"⟩]

/-- Python-dict assignment `d[k] = v` on an insertion-ordered association
list: overwrite in place if the key exists, otherwise append. -/
def assocSet (l : List (String × VoiceSettings)) (k : String)
    (v : VoiceSettings) : List (String × VoiceSettings) :=
  if l.any (fun p => p.1 == k) then
    l.map (fun p => if p.1 == k then (k, v) else p)
  else
    l ++ [(k, v)]

/-- Python-dict lookup `d.get(k)` on an association list. -/
def assocFind (l : List (String × VoiceSettings)) (k : String) :
    Option VoiceSettings :=
  (l.find? (fun p => p.1 == k)).map Prod.snd

/-- One step of the speaker-grouping loop of casting_director.py lines
252-256: append `line` to the speaker's dialogue list, creating the entry
on first appearance (Python dicts preserve insertion order). -/
def addLine (acc : List (String × List String)) (sp line : String) :
    List (String × List String) :=
  if acc.any (fun p => p.1 == sp) then
    acc.map (fun p => if p.1 == sp then (p.1, p.2 ++ [line]) else p)
  else
    acc ++ [(sp, [line])]

/-- `speaker_data` of casting_director.py lines 251-256: dialogue lines
grouped by speaker, keyed in order of first appearance. -/
def speakerData (scenes : List Scene) : List (String × List String) :=
  scenes.foldl (fun acc sc => addLine acc sc.speaker sc.line) []

/-- The fallback voice id chosen when the LLM names an unknown voice
(casting_director.py line 377): `FALLBACK_VOICES[k % len(FALLBACK_VOICES)]`. -/
def fallbackIdAt (k : Nat) : String :=
  (FALLBACK_VOICES.getD (k % FALLBACK_VOICES.length) ⟨"", "", ""⟩).voice_id

/-- The duplicate-voice scan of casting_director.py lines 380-384: the
first catalog voice id not yet used, if any. -/
def firstUnused (used : List String) : List String → Option String
  | [] => none
  | v :: rest => if used.contains v then firstUnused used rest else some v

/-- One iteration of the response-processing loop of `_llm_select_voices`
(casting_director.py lines 370-392), acting on the accumulated assignments
and used-voice set.  `used` is a Python `set` queried only through
membership, modelled as a list. -/
def processCastEntry
    (acc : List (String × VoiceSettings) × List String)
    (entry : String × RawVoiceData) :
    List (String × VoiceSettings) × List String :=
  let assignments := acc.1
  let used := acc.2
  let vid0 := entry.2.voice_id.getD ""
  let vid1 := if AVAILABLE_VOICE_IDS.contains vid0 then vid0
              else fallbackIdAt assignments.length
  let vid2 := if used.contains vid1 then (firstUnused used AVAILABLE_VOICE_IDS).getD vid1
              else vid1
  (assocSet assignments entry.1
     ⟨vid2, entry.2.pitch.getD "+0Hz", entry.2.rate.getD "+0%"⟩,
   used ++ [vid2])

/-- Shallow embedding of `_llm_select_voices` (casting_director.py lines
306-398).  `resp` is the parsed JSON object returned by the LLM
collaborator as an ordered key/value list; `none` models every path that
raises inside the function's `try` (request failure, unparsable JSON),
which its `except` arm turns into the empty dict. -/
def llm_select_voices (resp : Option (List (String × RawVoiceData))) :
    List (String × VoiceSettings) :=
  match resp with
  | none => []
  | some data => (data.foldl processCastEntry ([], [])).1

/-- Shallow embedding of `_fallback_casting` (casting_director.py lines
401-407): cycle through `FALLBACK_VOICES` in assignment order. -/
def fallback_casting (speakers : List String) :
    List (String × VoiceSettings) :=
  speakers.enum.foldl
    (fun acc p =>
      assocSet acc p.2
        (FALLBACK_VOICES.getD (p.1 % FALLBACK_VOICES.length) ⟨"", "", ""⟩))
    []

/-- Shallow embedding of `casting_director_node` (casting_director.py lines
235-303).  `resp` is the casting collaborator's parsed response as in
`llm_select_voices`.  The database block of lines 266-281 is abstracted
away (its own failure would take the node's `except` arm of lines 292-301,
whose `list(set(...))`-ordered fallback is not modelled); the node is only
reached when `script_json` is populated, and the unreachable `None` case
is modelled as an empty scene list. -/
def casting_director_node (resp : Option (List (String × RawVoiceData)))
    (st : GraphState) : GraphState :=
  let st := { st with current_step := "casting" }
  let scenes := match st.script_json with
                | some sj => sj.scenes
                | none => []
  let sd := speakerData scenes
  let ca := llm_select_voices resp
  let ca := if ca.isEmpty then fallback_casting (sd.map Prod.fst) else ca
  { st with cast_list := some ca, progress := 0.3 }

/- ### Image stage (backend/app/graph/nodes/image_generator.py) -/

/-- Worker for `sceneGroups`, structurally recursive on a fuel bound. -/
def sceneGroupsAux (spi : Nat) : Nat → List Scene → List (List Scene)
  | _, [] => []
  | 0, _ :: _ => []
  | fuel + 1, a :: l =>
    (a :: l).take spi :: sceneGroupsAux spi fuel (l.drop (spi - 1))

/-- The scene grouping of image_generator.py lines 120-123:
`for i in range(0, num_scenes, scenes_per_image): scenes[i:i+spi]`,
written with an explicit structural bound (the list length, which always
suffices for a positive step) so that it evaluates by reduction.  The node
treats step 0 as the `ValueError` Python raises there, so the step is
positive whenever this runs. -/
def sceneGroups (spi : Nat) (l : List Scene) : List (List Scene) :=
  sceneGroupsAux spi l.length l

/-- Shallow embedding of `_generate_image_prompts_for_groups`
(image_generator.py lines 225-289): the prompt list is padded with the
fixed filler up to the group count and truncated to it, so the result
always has exactly one prompt per group.  `resp` is the parsed JSON list
from the LLM; `none` models every raising path (request failure, bad JSON,
non-list response), which the `except` arm replaces by the other fixed
fallback prompt repeated. -/
def generate_image_prompts_for_groups (resp : Option (List String))
    (numGroups : Nat) : List String :=
  match resp with
  | none =>
    List.replicate numGroups
      "Abstract colorful gradient background, cinematic lighting, 4K quality"
  | some ps =>
    (ps ++ List.replicate (numGroups - ps.length)
      "Abstract colorful background, cinematic lightning, 4k quality").take
      numGroups

/-- Shallow embedding of `ImageService.generate_batch` (image_service.py
lines 181-197): one entry per prompt, `none` where the per-image synthesis
raised.  `gen i p` is the outcome of `generate_scene_image` for prompt `p`
at position `i`. -/
def generate_batch (gen : Nat → String → Option String)
    (prompts : List String) : List (Option String) :=
  prompts.enum.map (fun p => gen p.1 p.2)

/-- The `try` body of `image_generator_node` (image_generator.py lines
40-173): `none` means the body raised (abstracted persistence raised
(`db_ok = false`), `script_json` was `None`, or `scenes_per_image` was 0 in
per_scene mode).  On success the updated state is returned WITHOUT the
final `progress` write, applied by the caller. -/
def image_generator_try (prompts_resp : Option (List String))
    (summary : String) (gen : Nat → String → Option String) (db_ok : Bool)
    (st : GraphState) : Option GraphState :=
  if !db_ok then none
  else
    match st.script_json with
    | none => none
    | some sj =>
      let num_scenes := sj.scenes.length
      if st.image_mode == "none" then
        some { st with image_files := [], image_scene_indices := [],
                       image_prompts := [] }
      else if st.image_mode == "upload" then
        match st.background_image_url with
        | some url =>
          if url ≠ "" then
            some { st with image_files := [url],
                           image_scene_indices := List.replicate num_scenes 0,
                           image_prompts := ["User-uploaded background"] }
          else
            some { st with image_files := [], image_scene_indices := [],
                           image_prompts := [] }
        | none =>
          some { st with image_files := [], image_scene_indices := [],
                         image_prompts := [] }
      else if st.image_mode == "single" then
        let image_prompts := [summary]
        let image_files := generate_batch gen image_prompts
        let valid := image_files.filterMap id
        if valid ≠ [] then
          some { st with image_files := valid,
                         image_scene_indices := List.replicate num_scenes 0,
                         image_prompts := image_prompts }
        else
          some { st with image_files := [], image_scene_indices := [],
                         image_prompts := [] }
      else
        let spi := st.scenes_per_image
        if spi = 0 then none
        else
          let groups := sceneGroups spi sj.scenes
          let image_prompts :=
            generate_image_prompts_for_groups prompts_resp groups.length
          let image_files := generate_batch gen image_prompts
          let valid := image_files.filterMap id
          let image_for_scene := (List.range num_scenes).map
            (fun i => if i / spi < valid.length then (i / spi : Int) else -1)
          some { st with image_files := valid,
                         image_scene_indices := image_for_scene,
                         image_prompts := image_prompts }

/-- Shallow embedding of `image_generator_node` (image_generator.py lines
19-185): run the `try` body; on success write `progress = 0.25` (line 162),
on an exception append one error and set the three outputs empty (lines
175-183) without touching `progress`. -/
def image_generator_node (prompts_resp : Option (List String))
    (summary : String) (gen : Nat → String → Option String) (db_ok : Bool)
    (st : GraphState) : GraphState :=
  let st := { st with current_step := "generating_images" }
  match image_generator_try prompts_resp summary gen db_ok st with
  | some st2 => { st2 with progress := 0.25 }
  | none =>
    { st with errors := st.errors ++ ["Image generation failed"],
              image_files := [], image_scene_indices := [],
              image_prompts := [] }

/-- Shallow embedding of `should_continue_after_images` (image_generator.py
lines 292-297): always route to the audio stage. -/
def should_continue_after_images (_st : GraphState) : String :=
  "audio_generator"

/- ### Audio stage (backend/app/graph/nodes/audio_generator.py) -/

/-- The hardcoded default voice descriptor of audio_generator.py lines
46-50, used when a speaker is missing from the cast assignments. -/
def defaultVoice : VoiceSettings :=
  ⟨"en-US-AriaNeural", "+0Hz", "+0%"⟩

/-- Accumulator of the per-scene loop of `audio_generator_node`: generated
files, the error log, and the per-scene progress value. -/
structure AudioAcc where
  files : List String
  errs : List String
  prog : ℚ
deriving DecidableEq, Repr

/-- Shallow embedding of `audio_generator_node` (audio_generator.py lines
16-109).  `tts` is the outcome of `tts_service.generate_scene_audio` for
scene index `i` with the given line and voice settings (`none` = the call
raised).  Scenes are processed in order; a failed scene appends an error
and is skipped; per-scene progress is written in the 0.3-0.6 range, then
overwritten by the final writes `audio_files = ...` and `progress = 0.6`.
The asset records and project-status update are abstracted persistence.
Note: the node never writes `audio_scene_indices`.  The node is only
reached when `script_json` and `cast_list` are populated; their
unreachable `None` cases are modelled as empty. -/
def audio_generator_node (tts : Nat → String → VoiceSettings → Option String)
    (st : GraphState) : GraphState :=
  let st := { st with current_step := "generating_audio" }
  let scenes := match st.script_json with
                | some sj => sj.scenes
                | none => []
  let cast := st.cast_list.getD []
  let scene_count := scenes.length
  let result := scenes.enum.foldl
    (fun (acc : AudioAcc) p =>
      let voice := (assocFind cast p.2.speaker).getD defaultVoice
      let acc :=
        match tts p.1 p.2.line voice with
        | some path => { acc with files := acc.files ++ [path] }
        | none =>
          { acc with errs := acc.errs ++
              ["Audio generation failed for scene " ++ toString p.1] }
      { acc with
          prog := 0.3 + 0.3 * ((p.1 : ℚ) + 1) / (scene_count : ℚ) })
    ⟨[], st.errors, st.progress⟩
  { st with errors := result.errs, audio_files := result.files,
            progress := 0.6 }

/-- Shallow embedding of `should_continue_after_audio` (audio_generator.py
lines 111-123). -/
def should_continue_after_audio (st : GraphState) : String :=
  if !st.audio_files.isEmpty then "video_composer" else "end"

/- ### Publish stage failure handling
(backend/app/graph/nodes/youtube_uploader.py, `except` arm, lines 106-142) -/

/-- The project record fields the publish stage's failure handling touches. -/
structure ProjectRecord where
  status : ProjectStatus
  error_message : Option String
deriving DecidableEq, Repr

/-- The stored platform-connection fields the failure handling touches. -/
structure ConnectionRecord where
  is_active : Bool
deriving DecidableEq, Repr

/-- Shallow embedding of the `except` arm of `youtube_uploader_node`
(youtube_uploader.py lines 106-142), given the raised error's string `e`:
append the error to the state log; then, if the message matches the
auth pattern (`"401" in e or "invalid_grant" in e.lower()`), deactivate
the connection and revert the project to completed with the explanatory
message; else if it matches the quota pattern
(`"403" in e or "quotaExceeded" in e.lower()`), revert the project to
completed without deactivating; else change nothing beyond the log. -/
def handle_upload_failure (e : String) (st : GraphState)
    (proj : ProjectRecord) (conn : ConnectionRecord) :
    GraphState × ProjectRecord × ConnectionRecord :=
  let st := { st with errors := st.errors ++ ["YouTube upload failed: " ++ e] }
  if strContainsSub e "401" || strContainsSub (pyLower e) "invalid_grant" then
    (st,
     { proj with status := .completed,
                 error_message :=
                   some "YouTube connection expired. Please reconnect." },
     { conn with is_active := false })
  else if strContainsSub e "403" ||
      strContainsSub (pyLower e) "quotaExceeded" then
    (st,
     { proj with status := .completed,
                 error_message :=
                   some "YouTube quota exceeded. Will retry tomorrow." },
     conn)
  else
    (st, proj, conn)

/- ### Statement-side predicates and concrete sample inputs -/

/-- A generation attempt that the script stage treats as a failure:
the collaborator raised, or the document fails validation (missing or
empty scene list, or a scene without a speaker or line). -/
def scriptGenFails : Option RawScript → Bool
  | none => true
  | some raw =>
    match raw.scenes with
    | none => true
    | some [] => true
    | some l => !(l.all validScene)

/-- Scene literal with the default duration, for concrete sample inputs. -/
def mkScene (sp line : String) : Scene :=
  ⟨sp, line, 3⟩

/-- A fresh pipeline state, for concrete sample inputs. -/
def sampleInit : GraphState :=
  initialState "proj-1" "user-1" "a topic" false "per_scene" 2 none

/-- Sample state entering the audio stage: a one-scene script with its
cast assignment. -/
def audioSampleState : GraphState :=
  { sampleInit with
      script_json := some ⟨[mkScene "Host" "Hello"]⟩,
      cast_list := some [("Host", ⟨"en-US-GuyNeural", "+0Hz", "+0%"⟩)] }

/-- Sample TTS collaborator that synthesises every scene. -/
def sampleTtsOk : Nat → String → VoiceSettings → Option String :=
  fun i _ _ => some ("audio/" ++ toString i ++ ".mp3")

/-- Sample state entering the image stage in per_scene mode with ratio 1
and two scenes. -/
def imageSampleState : GraphState :=
  { sampleInit with
      scenes_per_image := 1,
      script_json := some ⟨[mkScene "A" "a", mkScene "B" "b"]⟩ }

/-- Sample image collaborator whose first synthesis fails and whose later
ones succeed with the same file. -/
def sampleImageGenFail0 : Nat → String → Option String :=
  fun i _ => if i = 0 then none else some "img-of-group-1"

/-- Sample state entering the casting stage with image mode "none". -/
def progressSampleState : GraphState :=
  { sampleInit with
      image_mode := "none",
      script_json := some ⟨[mkScene "Host" "Hello"]⟩ }

/- ### C1 -/

/-- C1: the claim states that every audio-stage output has
`len(audio_file_list) == len(audio_to_scene_index_map)` and that a
non-empty audio file list comes with a non-empty index map naming each
file's scene.  The code violates this: `audio_generator_node` never writes
`audio_scene_indices` at all, so with one scene whose synthesis succeeds
the stage leaves the pipeline-initialised empty index map next to a
one-element audio file list — the two lengths differ and the map does not
name the producing scene. -/
theorem C1_audio_stage_never_writes_index_map :
    (audio_generator_node sampleTtsOk audioSampleState).audio_files.length
      = 1 ∧
    (audio_generator_node sampleTtsOk
      audioSampleState).audio_scene_indices.length = 0 ∧
    (audio_generator_node sampleTtsOk audioSampleState).audio_scene_indices
      = audioSampleState.audio_scene_indices ∧
    should_continue_after_audio
      (audio_generator_node sampleTtsOk audioSampleState)
      = "video_composer" := by
  decide

/- ### C2 -/

/-- C2: the claim states that in per_scene mode scene `i` maps to
`⌊i / ratio⌋` holding the image generated for scene `i`'s group, or the
sentinel −1 exactly when that group's image failed, and that no scene is
mapped to a different group's image.  The code violates this: with 2
scenes, ratio 1, the group-0 image failing and the group-1 image
succeeding, the compacted valid-image list makes scene 0 (whose own group
image failed) map to index 0, which holds the image generated for group 1,
and scene 1 (whose group image succeeded) map to the sentinel −1. -/
theorem C2_per_scene_map_misaligned_after_failure :
    sampleImageGenFail0 0 "prompt-0" = none ∧
    sampleImageGenFail0 1 "prompt-1" = some "img-of-group-1" ∧
    (image_generator_node (some ["prompt-0", "prompt-1"]) "summary"
      sampleImageGenFail0 true imageSampleState).image_files
      = ["img-of-group-1"] ∧
    (image_generator_node (some ["prompt-0", "prompt-1"]) "summary"
      sampleImageGenFail0 true imageSampleState).image_scene_indices
      = [0, -1] := by
  decide

/- ### C4 -/

/-- C4: the claim states the progress fractions written at stage
completions are non-decreasing, in particular that the image stage's write
is not smaller than the preceding casting stage's.  The code violates
this: the casting stage completes writing `progress = 0.3`
(casting_director.py line 284) and the image stage, which runs directly
after it (pipeline.py line 74), completes writing `progress = 0.25`
(image_generator.py line 162) — a strict decrease. -/
theorem C4_progress_decreases_between_casting_and_image :
    (casting_director_node none progressSampleState).progress = 0.3 ∧
    (image_generator_node none "summary" (fun _ _ => none) true
      (casting_director_node none progressSampleState)).progress = 0.25 ∧
    (image_generator_node none "summary" (fun _ _ => none) true
      (casting_director_node none progressSampleState)).progress <
      (casting_director_node none progressSampleState).progress := by
  refine ⟨rfl, rfl, ?_⟩
  show (0.25 : ℚ) < 0.3
  norm_num

/- ### C7 -/

/-- C7: in upload image mode with a supplied (non-empty) background
reference and any script of N ≥ 1 scenes, the image stage outputs exactly
the one-element file list holding that reference and an index map of
length N all of whose entries are 0. -/
theorem C7_upload_mode_wraps_reference (st : GraphState) (url : String)
    (scenes : List Scene) (prompts_resp : Option (List String))
    (summary : String) (gen : Nat → String → Option String)
    (hurl : url ≠ "") (hn : 1 ≤ scenes.length) :
    let out := image_generator_node prompts_resp summary gen true
      { st with image_mode := "upload", background_image_url := some url,
                script_json := some ⟨scenes⟩ }
    out.image_files = [url] ∧ out.image_files.length = 1 ∧
    out.image_scene_indices = List.replicate scenes.length 0 ∧
    out.image_scene_indices.length = scenes.length ∧
    1 ≤ out.image_scene_indices.length ∧
    ∀ k ∈ out.image_scene_indices, k = 0 := by
  simp [image_generator_node, image_generator_try, hurl, hn]

/-- Witness for C7 at a concrete input: mode upload, reference "bg.png",
five scenes. -/
theorem C7_upload_mode_wraps_reference_witness :
    ("bg.png" : String) ≠ "" ∧
    1 ≤ (List.replicate 5 (mkScene "A" "a")).length ∧
    (let out := image_generator_node none "s" (fun _ _ => none) true
      { sampleInit with image_mode := "upload",
                        background_image_url := some "bg.png",
                        script_json :=
                          some ⟨List.replicate 5 (mkScene "A" "a")⟩ }
     out.image_files = ["bg.png"] ∧ out.image_files.length = 1 ∧
     out.image_scene_indices =
       List.replicate (List.replicate 5 (mkScene "A" "a")).length 0 ∧
     out.image_scene_indices.length =
       (List.replicate 5 (mkScene "A" "a")).length ∧
     1 ≤ out.image_scene_indices.length ∧
     ∀ k ∈ out.image_scene_indices, k = 0) :=
  ⟨by decide, by decide,
   C7_upload_mode_wraps_reference sampleInit "bg.png"
     (List.replicate 5 (mkScene "A" "a")) none "s" (fun _ _ => none)
     (by decide) (by decide)⟩

/- ### C10 -/

/-- C10: in upload image mode with no background reference, the image
stage appends no error and produces empty image file list, index map and
prompt list — identical outputs to mode "none" — and the continuation
predicate routes to the audio stage. -/
theorem C10_upload_mode_without_reference_degrades (st : GraphState)
    (sj : Script) (prompts_resp : Option (List String)) (summary : String)
    (gen : Nat → String → Option String) :
    let out := image_generator_node prompts_resp summary gen true
      { st with image_mode := "upload", background_image_url := none,
                script_json := some sj }
    let outNone := image_generator_node prompts_resp summary gen true
      { st with image_mode := "none", background_image_url := none,
                script_json := some sj }
    out.image_files = [] ∧ out.image_scene_indices = [] ∧
    out.image_prompts = [] ∧ out.errors = st.errors ∧
    out.image_files = outNone.image_files ∧
    out.image_scene_indices = outNone.image_scene_indices ∧
    out.image_prompts = outNone.image_prompts ∧
    out.errors = outNone.errors ∧
    should_continue_after_images out = "audio_generator" := by
  simp [image_generator_node, image_generator_try,
        should_continue_after_images]

/- ### C5 helper lemmas -/

/-- A failing generation attempt takes the `except` arm: one error
appended, retry counter incremented, `script_json` untouched. -/
theorem script_writer_node_fails (gen : Option RawScript) (persist_ok : Bool)
    (st : GraphState) (h : scriptGenFails gen = true) :
    script_writer_node gen persist_ok st =
      { st with current_step := "generating_script",
                errors := st.errors ++ ["Script generation failed"],
                retry_count := st.retry_count + 1 } := by
  cases gen with
  | none => rfl
  | some raw =>
    cases hs : raw.scenes with
    | none => simp [script_writer_node, hs]
    | some l =>
      cases l with
      | nil => simp [script_writer_node, hs]
      | cons a as =>
        have hv : ((a :: as).all validScene) = false := by
          have h' := h
          simp only [scriptGenFails, hs, Bool.not_eq_true'] at h'
          exact h'
        simp [script_writer_node, hs, hv]

/-- Full characterisation of the script-stage retry loop under persistent
generation failure, from any state with a null script and a retry counter
below the maximum: the loop performs `3 - retry_count` further
invocations, each appending one error, ends with the counter exactly at 3
and the script still null, and exits on the route "end". -/
theorem run_script_phase_fail_count (gen_seq : Nat → Option RawScript)
    (persist_ok : Bool)
    (hfail : ∀ n, scriptGenFails (gen_seq n) = true) :
    ∀ fuel st n, st.script_json = none → st.retry_count < 3 →
      3 ≤ st.retry_count + fuel →
      (run_script_phase gen_seq persist_ok fuel st n).1.retry_count = 3 ∧
      (run_script_phase gen_seq persist_ok fuel st n).1.errors.length =
        st.errors.length + (3 - st.retry_count) ∧
      (run_script_phase gen_seq persist_ok fuel st n).1.script_json = none ∧
      (run_script_phase gen_seq persist_ok fuel st n).2.1 =
        n + (3 - st.retry_count) ∧
      (run_script_phase gen_seq persist_ok fuel st n).2.2 = "end" := by
  intro fuel
  induction fuel with
  | zero =>
    intro st n h1 h2 h3
    omega
  | succ f ih =>
    intro st n h1 h2 h3
    rw [run_script_phase]
    rw [script_writer_node_fails (gen_seq n) persist_ok st (hfail n)]
    by_cases hr : st.retry_count + 1 = 3
    · have hpred : should_continue_after_script
          { st with current_step := "generating_script",
                    errors := st.errors ++ ["Script generation failed"],
                    retry_count := st.retry_count + 1 } = "end" := by
        simp [should_continue_after_script, h1, MAX_RETRIES]
        omega
      rw [hpred, if_neg (by decide : ¬("end" = "script_writer"))]
      refine ⟨hr, ?_, h1, ?_, rfl⟩
      · show (st.errors ++ ["Script generation failed"]).length =
          st.errors.length + (3 - st.retry_count)
        simp only [List.length_append, List.length_cons, List.length_nil]
        omega
      · show n + 1 = n + (3 - st.retry_count)
        omega
    · have hpred : should_continue_after_script
          { st with current_step := "generating_script",
                    errors := st.errors ++ ["Script generation failed"],
                    retry_count := st.retry_count + 1 } = "script_writer" := by
        simp [should_continue_after_script, h1, MAX_RETRIES]
        omega
      rw [hpred, if_pos rfl]
      have := ih { st with current_step := "generating_script",
                           errors := st.errors ++ ["Script generation failed"],
                           retry_count := st.retry_count + 1 } (n + 1)
        h1 (by show st.retry_count + 1 < 3; omega)
        (by show 3 ≤ st.retry_count + 1 + f; omega)
      refine ⟨this.1, ?_, this.2.2.1, ?_, this.2.2.2.2⟩
      · rw [this.2.1]
        show (st.errors ++ ["Script generation failed"]).length +
            (3 - (st.retry_count + 1)) = st.errors.length +
            (3 - st.retry_count)
        simp only [List.length_append, List.length_cons, List.length_nil]
        omega
      · rw [this.2.2.2.1]
        show n + 1 + (3 - (st.retry_count + 1)) = n + (3 - st.retry_count)
        omega

/-- The retry counter can never exceed 3: from any state with a null
script and counter below 3, the loop result's counter stays at most 3,
for every fuel value (i.e. at every prefix of the run). -/
theorem run_script_phase_retry_le (gen_seq : Nat → Option RawScript)
    (persist_ok : Bool)
    (hfail : ∀ n, scriptGenFails (gen_seq n) = true) :
    ∀ fuel st n, st.script_json = none → st.retry_count < 3 →
      (run_script_phase gen_seq persist_ok fuel st n).1.retry_count ≤ 3 := by
  intro fuel
  induction fuel with
  | zero =>
    intro st n h1 h2
    simpa [run_script_phase] using h2.le
  | succ f ih =>
    intro st n h1 h2
    rw [run_script_phase]
    rw [script_writer_node_fails (gen_seq n) persist_ok st (hfail n)]
    by_cases hr : st.retry_count + 1 < 3
    · have hpred : should_continue_after_script
          { st with current_step := "generating_script",
                    errors := st.errors ++ ["Script generation failed"],
                    retry_count := st.retry_count + 1 } = "script_writer" := by
        simp [should_continue_after_script, h1, MAX_RETRIES]
        omega
      rw [hpred, if_pos rfl]
      exact ih _ (n + 1) h1 (by show st.retry_count + 1 < 3; omega)
    · have hpred : should_continue_after_script
          { st with current_step := "generating_script",
                    errors := st.errors ++ ["Script generation failed"],
                    retry_count := st.retry_count + 1 } = "end" := by
        simp [should_continue_after_script, h1, MAX_RETRIES]
        omega
      rw [hpred, if_neg (by decide : ¬("end" = "script_writer"))]
      show st.retry_count + 1 ≤ 3
      omega

/- ### C5 -/

/-- C5: a failing script generation (collaborator error or validation
failure) appends exactly one error, increments the retry counter by one,
leaves `script_json` null, and the continuation predicate then routes back
to the script stage; under persistent failure the loop invokes the stage
exactly 3 times, ends with retry counter exactly 3 (and never exceeding 3
at any prefix of the run), an error log grown by 3, a still-null script,
and the route "end" — never the downstream "casting_director". -/
theorem C5_script_retry_bounded (st : GraphState)
    (gen_seq : Nat → Option RawScript) (persist_ok : Bool) (fuel : Nat)
    (h1 : st.script_json = none) (h2 : st.retry_count = 0)
    (hfail : ∀ n, scriptGenFails (gen_seq n) = true) (hf : 3 ≤ fuel) :
    (script_writer_node (gen_seq 0) persist_ok st).errors.length =
      st.errors.length + 1 ∧
    (script_writer_node (gen_seq 0) persist_ok st).retry_count =
      st.retry_count + 1 ∧
    (script_writer_node (gen_seq 0) persist_ok st).script_json = none ∧
    should_continue_after_script
      (script_writer_node (gen_seq 0) persist_ok st) = "script_writer" ∧
    (run_script_phase gen_seq persist_ok fuel st 0).2.1 = 3 ∧
    (run_script_phase gen_seq persist_ok fuel st 0).1.retry_count = 3 ∧
    (run_script_phase gen_seq persist_ok fuel st 0).1.errors.length =
      st.errors.length + 3 ∧
    (run_script_phase gen_seq persist_ok fuel st 0).1.script_json = none ∧
    (run_script_phase gen_seq persist_ok fuel st 0).2.2 = "end" ∧
    (run_script_phase gen_seq persist_ok fuel st 0).2.2 ≠
      "casting_director" ∧
    (∀ k, (run_script_phase gen_seq persist_ok k st 0).1.retry_count ≤ 3) := by
  have hstep := script_writer_node_fails (gen_seq 0) persist_ok st (hfail 0)
  have hmain := run_script_phase_fail_count gen_seq persist_ok hfail fuel st 0
    h1 (by omega) (by omega)
  refine ⟨?_, ?_, ?_, ?_, ?_, ?_, ?_, ?_, ?_, ?_, ?_⟩
  · rw [hstep]; simp
  · rw [hstep]
  · rw [hstep]; simpa using h1
  · rw [hstep]
    simp [should_continue_after_script, h1, MAX_RETRIES]
    omega
  · rw [hmain.2.2.2.1]; omega
  · exact hmain.1
  · rw [hmain.2.1]; omega
  · exact hmain.2.2.1
  · exact hmain.2.2.2.2
  · rw [hmain.2.2.2.2]; decide
  · intro k
    exact run_script_phase_retry_le gen_seq persist_ok hfail k st 0 h1
      (by omega)

/-- Witness for C5 at a concrete input: a fresh state, a collaborator that
always raises, fuel 3. -/
theorem C5_script_retry_bounded_witness :
    sampleInit.script_json = none ∧ sampleInit.retry_count = 0 ∧
    (∀ n : Nat, scriptGenFails ((fun _ => none) n) = true) ∧
    (3 : Nat) ≤ 3 ∧
    ((script_writer_node ((fun _ => none) 0) true sampleInit).errors.length =
      sampleInit.errors.length + 1 ∧
    (script_writer_node ((fun _ => none) 0) true sampleInit).retry_count =
      sampleInit.retry_count + 1 ∧
    (script_writer_node ((fun _ => none) 0) true sampleInit).script_json =
      none ∧
    should_continue_after_script
      (script_writer_node ((fun _ => none) 0) true sampleInit) =
      "script_writer" ∧
    (run_script_phase (fun _ => none) true 3 sampleInit 0).2.1 = 3 ∧
    (run_script_phase (fun _ => none) true 3 sampleInit 0).1.retry_count =
      3 ∧
    (run_script_phase (fun _ => none) true 3 sampleInit 0).1.errors.length =
      sampleInit.errors.length + 3 ∧
    (run_script_phase (fun _ => none) true 3 sampleInit 0).1.script_json =
      none ∧
    (run_script_phase (fun _ => none) true 3 sampleInit 0).2.2 = "end" ∧
    (run_script_phase (fun _ => none) true 3 sampleInit 0).2.2 ≠
      "casting_director" ∧
    (∀ k, (run_script_phase (fun _ => none) true k sampleInit 0).1.retry_count
      ≤ 3)) :=
  ⟨rfl, rfl, fun _ => rfl, by decide,
   C5_script_retry_bounded sampleInit (fun _ => none) true 3 rfl rfl
     (fun _ => rfl) (by decide)⟩

/- ### C8 helper lemmas -/

/-- The ASCII word-character class satisfies the regex `\w` constraint:
no whitespace, no control characters, none of the SSML-sensitive
characters. -/
theorem asciiWordChar_ok : WordClassOK asciiWordChar := by
  intro c h
  simp only [asciiWordChar, Bool.or_eq_true, Bool.and_eq_true,
    decide_eq_true_eq, beq_iff_eq] at h
  refine ⟨?_, ?_, ?_, ?_, ?_⟩
  · rw [Bool.eq_false_iff]
    intro hsp
    simp only [pyIsSpace, Bool.or_eq_true, Bool.and_eq_true,
      decide_eq_true_eq, beq_iff_eq] at hsp
    omega
  · rw [Bool.eq_false_iff]
    intro hct
    simp only [isCtrlChar, Bool.or_eq_true, Bool.and_eq_true,
      decide_eq_true_eq, beq_iff_eq] at hct
    omega
  · intro hc
    rw [hc] at h
    have he : ('<' : Char).toNat = 60 := rfl
    rw [he] at h
    omega
  · intro hc
    rw [hc] at h
    have he : ('>' : Char).toNat = 62 := rfl
    rw [he] at h
    omega
  · intro hc
    rw [hc] at h
    have he : ('&' : Char).toNat = 38 := rfl
    rw [he] at h
    omega

/-- A word class respecting `WordClassOK` keeps none of `<`, `>`, `&` in
the first substitution's character class. -/
theorem keepCharClass_excludes {w : Char → Bool} (hw : WordClassOK w) :
    keepCharClass w '<' = false ∧ keepCharClass w '>' = false ∧
      keepCharClass w '&' = false := by
  have hlt : w '<' = false := by
    rw [Bool.eq_false_iff]
    intro hc
    exact absurd rfl (hw _ hc).2.2.1
  have hgt : w '>' = false := by
    rw [Bool.eq_false_iff]
    intro hc
    exact absurd rfl (hw _ hc).2.2.2.1
  have hamp : w '&' = false := by
    rw [Bool.eq_false_iff]
    intro hc
    exact absurd rfl (hw _ hc).2.2.2.2
  refine ⟨?_, ?_, ?_⟩ <;> simp [keepCharClass, hlt, hgt, hamp] <;> decide

/-- Members of the whitespace-collapsed list are the inserted single
spaces or members of the input. -/
theorem mem_collapseWs {c : Char} :
    ∀ (b : Bool) (l : List Char), c ∈ collapseWs b l → c = ' ' ∨ c ∈ l := by
  intro b l
  induction l generalizing b with
  | nil => intro h; simp [collapseWs] at h
  | cons a t ih =>
    intro h
    simp only [collapseWs] at h
    split at h
    · split at h
      · rcases ih _ h with h' | h'
        · exact Or.inl h'
        · exact Or.inr (List.mem_cons_of_mem _ h')
      · rcases List.mem_cons.mp h with h' | h'
        · exact Or.inl h'
        · rcases ih _ h' with h'' | h''
          · exact Or.inl h''
          · exact Or.inr (List.mem_cons_of_mem _ h'')
    · rcases List.mem_cons.mp h with h' | h'
      · exact Or.inr (h' ▸ List.mem_cons_self _ _)
      · rcases ih _ h' with h'' | h''
        · exact Or.inl h''
        · exact Or.inr (List.mem_cons_of_mem _ h'')

/-- Inside a whitespace run, the collapsed output starts (if at all) with
a non-whitespace character. -/
theorem collapseWs_head_true :
    ∀ (l : List Char) (c : Char),
      (collapseWs true l).head? = some c → pyIsSpace c = false := by
  intro l
  induction l with
  | nil => intro c h; simp [collapseWs] at h
  | cons a t ih =>
    intro c h
    simp only [collapseWs, if_true] at h
    split at h
    · exact ih c h
    · next hna =>
      simp only [List.head?_cons, Option.some.injEq] at h
      rw [← h]
      exact Bool.eq_false_iff.mpr hna

/-- The collapsed output never holds two adjacent whitespace characters. -/
theorem collapseWs_chain : ∀ (l : List Char) (b : Bool),
    NoDoubleWs (collapseWs b l) := by
  intro l
  induction l with
  | nil => intro b; simp [collapseWs, NoDoubleWs]
  | cons a t ih =>
    intro b
    rw [NoDoubleWs]
    simp only [collapseWs]
    split
    · cases b with
      | true =>
        rw [if_pos rfl]
        exact ih true
      | false =>
        simp only [if_neg Bool.false_ne_true]
        rw [List.chain'_cons']
        refine ⟨?_, ih true⟩
        intro x hx hcon
        have hns := collapseWs_head_true t x (Option.mem_def.mp hx)
        rw [hns] at hcon
        exact absurd hcon.2 (by simp)
    · next hna =>
      rw [List.chain'_cons']
      refine ⟨?_, ih false⟩
      intro x hx hcon
      exact absurd hcon.1 (by simp [Bool.eq_false_iff.mpr hna])

/-- Dropping a prefix cannot add members. -/
theorem mem_of_mem_dropWhile {p : Char → Bool} {c : Char} :
    ∀ {l : List Char}, c ∈ l.dropWhile p → c ∈ l := by
  intro l
  induction l with
  | nil => intro h; simp at h
  | cons a t ih =>
    intro h
    rw [List.dropWhile_cons] at h
    split at h
    · exact List.mem_cons_of_mem _ (ih h)
    · exact h

/-- The head surviving `dropWhile` fails the dropped predicate. -/
theorem head?_dropWhile_false (p : Char → Bool) :
    ∀ (l : List Char) (c : Char),
      (l.dropWhile p).head? = some c → p c = false := by
  intro l
  induction l with
  | nil => intro c h; simp at h
  | cons a t ih =>
    intro c h
    rw [List.dropWhile_cons] at h
    split at h
    · exact ih c h
    · next hna =>
      simp only [List.head?_cons, Option.some.injEq] at h
      rw [← h]
      exact Bool.eq_false_iff.mpr hna

/-- `dropWhile` keeps the last element when it keeps anything. -/
theorem getLast?_dropWhile_of_ne_nil (p : Char → Bool) :
    ∀ (l : List Char), l.dropWhile p ≠ [] →
      (l.dropWhile p).getLast? = l.getLast? := by
  intro l
  induction l with
  | nil => intro h; simp at h
  | cons a t ih =>
    intro h
    by_cases hp : p a
    · rw [List.dropWhile_cons, if_pos hp] at h ⊢
      rw [ih h]
      cases t with
      | nil => simp [List.dropWhile] at h
      | cons b t' => rw [List.getLast?_cons_cons]
    · rw [List.dropWhile_cons, if_neg hp]

/-- `dropWhile` preserves the no-adjacent-pair invariant. -/
theorem chain'_dropWhile {R : Char → Char → Prop} (p : Char → Bool) :
    ∀ (l : List Char), l.Chain' R → (l.dropWhile p).Chain' R := by
  intro l
  induction l with
  | nil => intro h; exact h
  | cons a t ih =>
    intro h
    rw [List.dropWhile_cons]
    split
    · exact ih (List.chain'_cons'.mp h).2
    · exact h

/-- The no-double-whitespace invariant is symmetric, hence survives
reversal. -/
theorem noDoubleWs_reverse {l : List Char} (h : NoDoubleWs l) :
    NoDoubleWs l.reverse := by
  rw [NoDoubleWs, List.chain'_reverse]
  exact List.Chain'.imp (fun a b hab hc => hab ⟨hc.2, hc.1⟩) h

/-- Stripping preserves the no-double-whitespace invariant. -/
theorem noDoubleWs_pyStrip {l : List Char} (h : NoDoubleWs l) :
    NoDoubleWs (pyStrip l) :=
  noDoubleWs_reverse (chain'_dropWhile _ _
    (noDoubleWs_reverse (chain'_dropWhile _ _ h)))

/-- Stripping cannot add members. -/
theorem mem_pyStrip {c : Char} {l : List Char} (h : c ∈ pyStrip l) :
    c ∈ l := by
  unfold pyStrip at h
  rw [List.mem_reverse] at h
  have h' := mem_of_mem_dropWhile h
  rw [List.mem_reverse] at h'
  exact mem_of_mem_dropWhile h'

/-- A stripped list never ends in whitespace. -/
theorem pyStrip_getLast_not_space (l : List Char) :
    ∀ c, (pyStrip l).getLast? = some c → pyIsSpace c = false := by
  intro c h
  unfold pyStrip at h
  rw [List.getLast?_reverse] at h
  exact head?_dropWhile_false _ _ c h

/-- A stripped list never starts with whitespace. -/
theorem pyStrip_head_not_space (l : List Char) :
    ∀ c, (pyStrip l).head? = some c → pyIsSpace c = false := by
  intro c h
  unfold pyStrip at h
  rw [List.head?_reverse] at h
  have hne : ((l.dropWhile pyIsSpace).reverse).dropWhile pyIsSpace ≠ [] := by
    intro hc
    rw [hc] at h
    simp at h
  rw [getLast?_dropWhile_of_ne_nil _ _ hne, List.getLast?_reverse] at h
  exact head?_dropWhile_false _ _ c h

/-- The `&`-replacement is the identity on lists without `&`. -/
theorem replaceAmp_id {l : List Char} (h : ∀ c ∈ l, c ≠ '&') :
    replaceAmp l = l := by
  induction l with
  | nil => rfl
  | cons a t ih =>
    rw [replaceAmp, List.flatMap_cons]
    have ha : ¬((a == '&') = true) := by
      simp only [beq_iff_eq]
      exact h a (by simp)
    rw [if_neg ha]
    have := ih (fun c hc => h c (List.mem_cons_of_mem _ hc))
    rw [replaceAmp] at this
    rw [this]
    rfl

/-- The `<`-removal is the identity on lists without `<`. -/
theorem removeLt_id {l : List Char} (h : ∀ c ∈ l, c ≠ '<') :
    removeLt l = l := by
  rw [removeLt]
  refine List.filter_eq_self.mpr ?_
  intro a ha
  simpa using h a ha

/-- The `>`-removal is the identity on lists without `>`. -/
theorem removeGt_id {l : List Char} (h : ∀ c ∈ l, c ≠ '>') :
    removeGt l = l := by
  rw [removeGt]
  refine List.filter_eq_self.mpr ?_
  intro a ha
  simpa using h a ha

/- ### C8 -/

/-- C8: the claim states that for EVERY input string the sanitizer returns
a non-empty string (with the listed shape properties).  The code violates
this at the concrete input "": the falsy-input guard
`if not text: return ""` returns the empty string. -/
theorem C8_sanitizer_empty_on_empty_input :
    sanitize_text_for_tts asciiWordChar "".data = [] := rfl

/-- C8 (as amended): for every NON-EMPTY input string — the empty input
returns the empty string — and every word-class predicate satisfying the
regex `\w` constraint, the sanitizer returns a non-empty string containing
no control character (U+0000 - U+001F, U+007F - U+009F), none of `<`, `>`,
`&`, no two adjacent whitespace characters, and no leading or trailing
whitespace. -/
theorem C8_amended_sanitizer_guarantees (w : Char → Bool)
    (hw : WordClassOK w) (text : List Char) (hne : text ≠ []) :
    sanitize_text_for_tts w text ≠ [] ∧
    (∀ c ∈ sanitize_text_for_tts w text, isCtrlChar c = false) ∧
    (∀ c ∈ sanitize_text_for_tts w text, c ≠ '<' ∧ c ≠ '>' ∧ c ≠ '&') ∧
    NoDoubleWs (sanitize_text_for_tts w text) ∧
    (∀ c, (sanitize_text_for_tts w text).head? = some c →
      pyIsSpace c = false) ∧
    (∀ c, (sanitize_text_for_tts w text).getLast? = some c →
      pyIsSpace c = false) := by
  obtain ⟨hklt, hkgt, hkamp⟩ := keepCharClass_excludes hw
  have h2 : ∀ c ∈ removeCtrl (removeNonKeep w text),
      keepCharClass w c = true ∧ isCtrlChar c = false := by
    intro c hc
    rw [removeCtrl, List.mem_filter] at hc
    rcases hc with ⟨hc1, hc2⟩
    rw [removeNonKeep, List.mem_filter] at hc1
    refine ⟨hc1.2, ?_⟩
    simpa using hc2
  have h3 : ∀ c ∈ collapseWs false (removeCtrl (removeNonKeep w text)),
      c = ' ' ∨ (keepCharClass w c = true ∧ isCtrlChar c = false) := by
    intro c hc
    rcases mem_collapseWs _ _ hc with h | h
    · exact Or.inl h
    · exact Or.inr (h2 c h)
  have h3amp : ∀ c ∈ collapseWs false (removeCtrl (removeNonKeep w text)),
      c ≠ '&' := by
    intro c hc hccon
    rcases h3 c hc with h | h
    · rw [hccon] at h
      exact absurd h (by decide)
    · rw [hccon] at h
      rw [hkamp] at h
      simp at h
  have h3lt : ∀ c ∈ collapseWs false (removeCtrl (removeNonKeep w text)),
      c ≠ '<' := by
    intro c hc hccon
    rcases h3 c hc with h | h
    · rw [hccon] at h
      exact absurd h (by decide)
    · rw [hccon] at h
      rw [hklt] at h
      simp at h
  have h3gt : ∀ c ∈ collapseWs false (removeCtrl (removeNonKeep w text)),
      c ≠ '>' := by
    intro c hc hccon
    rcases h3 c hc with h | h
    · rw [hccon] at h
      exact absurd h (by decide)
    · rw [hccon] at h
      rw [hkgt] at h
      simp at h
  have heq : sanitize_text_for_tts w text =
      (if pyStrip (collapseWs false (removeCtrl (removeNonKeep w text))) = []
       then ['.', '.', '.']
       else pyStrip (collapseWs false (removeCtrl (removeNonKeep w text)))) := by
    simp only [sanitize_text_for_tts]
    rw [if_neg hne, replaceAmp_id h3amp, removeLt_id h3lt, removeGt_id h3gt]
  have hchain : NoDoubleWs
      (collapseWs false (removeCtrl (removeNonKeep w text))) :=
    collapseWs_chain _ false
  rw [heq]
  by_cases hstrip :
      pyStrip (collapseWs false (removeCtrl (removeNonKeep w text))) = []
  · rw [if_pos hstrip]
    have hdot : pyIsSpace '.' = false := by decide
    refine ⟨by decide, by decide, by decide,
      by simp [NoDoubleWs, hdot], ?_, ?_⟩
    · intro c h
      simp only [List.head?_cons, Option.some.injEq] at h
      rw [← h]
      decide
    · intro c h
      have : (['.', '.', '.'] : List Char).getLast? = some '.' := rfl
      rw [this, Option.some.injEq] at h
      rw [← h]
      decide
  · rw [if_neg hstrip]
    refine ⟨hstrip, ?_, ?_, noDoubleWs_pyStrip hchain,
      pyStrip_head_not_space _, pyStrip_getLast_not_space _⟩
    · intro c hc
      rcases h3 c (mem_pyStrip hc) with h | h
      · rw [h]
        decide
      · exact h.2
    · intro c hc
      rcases h3 c (mem_pyStrip hc) with h | h
      · rw [h]
        decide
      · exact ⟨h3lt c (mem_pyStrip hc), h3gt c (mem_pyStrip hc),
          h3amp c (mem_pyStrip hc)⟩

/-- Witness for the amended C8 at the concrete input
"  Hello   <world> & \t friends!  " with the ASCII word class. -/
theorem C8_amended_sanitizer_guarantees_witness :
    ("  Hello   <world> & \t friends!  ").data ≠ [] ∧
    (sanitize_text_for_tts asciiWordChar
        ("  Hello   <world> & \t friends!  ").data ≠ [] ∧
     (∀ c ∈ sanitize_text_for_tts asciiWordChar
        ("  Hello   <world> & \t friends!  ").data, isCtrlChar c = false) ∧
     (∀ c ∈ sanitize_text_for_tts asciiWordChar
        ("  Hello   <world> & \t friends!  ").data,
        c ≠ '<' ∧ c ≠ '>' ∧ c ≠ '&') ∧
     NoDoubleWs (sanitize_text_for_tts asciiWordChar
        ("  Hello   <world> & \t friends!  ").data) ∧
     (∀ c, (sanitize_text_for_tts asciiWordChar
        ("  Hello   <world> & \t friends!  ").data).head? = some c →
        pyIsSpace c = false) ∧
     (∀ c, (sanitize_text_for_tts asciiWordChar
        ("  Hello   <world> & \t friends!  ").data).getLast? = some c →
        pyIsSpace c = false)) :=
  ⟨by decide,
   C8_amended_sanitizer_guarantees asciiWordChar asciiWordChar_ok
     ("  Hello   <world> & \t friends!  ").data (by decide)⟩

/- ### C3 helper lemmas -/

/-- Membership after a Python-dict assignment: every entry is the written
pair or an old entry. -/
theorem mem_assocSet {l : List (String × VoiceSettings)} {k : String}
    {v : VoiceSettings} {q : String × VoiceSettings}
    (h : q ∈ assocSet l k v) : q = (k, v) ∨ q ∈ l := by
  unfold assocSet at h
  split at h
  · rcases List.mem_map.mp h with ⟨p, hp, hq⟩
    by_cases hk : p.1 == k
    · simp [hk] at hq
      exact Or.inl hq.symm
    · simp [hk] at hq
      exact Or.inr (hq ▸ hp)
  · rcases List.mem_append.mp h with h' | h'
    · exact Or.inr h'
    · simp at h'
      exact Or.inl h'

/-- Assignment of a fresh key appends it. -/
theorem assocSet_keys_of_not_mem {l : List (String × VoiceSettings)}
    {k : String} {v : VoiceSettings} (h : k ∉ l.map Prod.fst) :
    (assocSet l k v).map Prod.fst = l.map Prod.fst ++ [k] := by
  have hany : l.any (fun p => p.1 == k) = false := by
    rw [List.any_eq_false]
    intro p hp
    simp only [beq_iff_eq]
    intro hpk
    exact h (List.mem_map.mpr ⟨p, hp, hpk⟩)
  simp [assocSet, hany]

/-- A key present among an association list's keys has a value. -/
theorem assocFind_isSome_of_mem_keys {l : List (String × VoiceSettings)}
    {k : String} (h : k ∈ l.map Prod.fst) : (assocFind l k).isSome := by
  induction l with
  | nil => simp at h
  | cons p rest ih =>
    simp only [List.map_cons, List.mem_cons] at h
    by_cases hk : p.1 == k
    · simp [assocFind, List.find?, hk]
    · rcases h with h | h
      · exact absurd (beq_iff_eq.mpr h.symm) (by simpa using hk)
      · have := ih h
        simpa [assocFind, List.find?, hk] using this

set_option maxRecDepth 4000 in
/-- The catalog contains no empty voice id. -/
theorem available_ids_nonempty : ∀ v ∈ AVAILABLE_VOICE_IDS, v ≠ "" := by
  decide

/-- The unknown-voice fallback always picks from `FALLBACK_VOICES`, whose
ids all live in the catalog. -/
theorem fallbackIdAt_mem (k : Nat) : fallbackIdAt k ∈ AVAILABLE_VOICE_IDS := by
  have hl : FALLBACK_VOICES.length = 4 := rfl
  have h4 : k % FALLBACK_VOICES.length = 0 ∨ k % FALLBACK_VOICES.length = 1 ∨
      k % FALLBACK_VOICES.length = 2 ∨ k % FALLBACK_VOICES.length = 3 := by
    rw [hl]
    omega
  rcases h4 with h | h | h | h <;> simp [fallbackIdAt, h] <;> decide

/-- The duplicate-voice scan returns a catalog member when it returns. -/
theorem firstUnused_mem {used : List String} {l : List String} {v : String}
    (h : firstUnused used l = some v) : v ∈ l := by
  induction l with
  | nil => simp [firstUnused] at h
  | cons a rest ih =>
    unfold firstUnused at h
    split at h
    · exact List.mem_cons_of_mem _ (ih h)
    · simp at h
      exact h ▸ List.mem_cons_self _ _

/-- The voice id written by one response-processing step (validated id,
else the cycling fallback id, then the duplicate-voice scan) is always a
catalog id. -/
theorem vid_choice_mem (vid0 : String) (k : Nat) (used : List String) :
    (if used.contains (if AVAILABLE_VOICE_IDS.contains vid0 then vid0
        else fallbackIdAt k) then
      (firstUnused used AVAILABLE_VOICE_IDS).getD
        (if AVAILABLE_VOICE_IDS.contains vid0 then vid0 else fallbackIdAt k)
     else (if AVAILABLE_VOICE_IDS.contains vid0 then vid0
        else fallbackIdAt k)) ∈ AVAILABLE_VOICE_IDS := by
  generalize hv : (if AVAILABLE_VOICE_IDS.contains vid0 then vid0
      else fallbackIdAt k) = vid1
  have hvid1 : vid1 ∈ AVAILABLE_VOICE_IDS := by
    rw [← hv]
    split
    · next hc => exact List.elem_iff.mp hc
    · exact fallbackIdAt_mem k
  split
  · cases hfu : firstUnused used AVAILABLE_VOICE_IDS with
    | none => simpa [hfu] using hvid1
    | some v => simpa [hfu] using firstUnused_mem hfu
  · exact hvid1

/-- Invariant of the response-processing fold: every assigned voice id is
a catalog id. -/
theorem processCast_foldl_vids (data : List (String × RawVoiceData)) :
    ∀ (assignments : List (String × VoiceSettings)) (used : List String),
      (∀ p ∈ assignments, p.2.voice_id ∈ AVAILABLE_VOICE_IDS) →
      ∀ p ∈ (data.foldl processCastEntry (assignments, used)).1,
        p.2.voice_id ∈ AVAILABLE_VOICE_IDS := by
  induction data with
  | nil => intro assignments used hinv p hp; exact hinv p hp
  | cons entry rest ih =>
    intro assignments used hinv p hp
    rw [List.foldl_cons] at hp
    refine ih _ _ ?_ p hp
    intro q hq
    rcases mem_assocSet hq with hq' | hq'
    · rw [hq']
      exact vid_choice_mem (entry.2.voice_id.getD "") assignments.length used
    · exact hinv q hq'

/-- Keys of the response-processing fold: with pairwise-distinct response
keys disjoint from the accumulator's, the fold appends exactly the
response's keys, in order. -/
theorem processCast_foldl_keys (data : List (String × RawVoiceData)) :
    ∀ (assignments : List (String × VoiceSettings)) (used : List String),
      (data.map Prod.fst).Nodup →
      (∀ k ∈ data.map Prod.fst, k ∉ assignments.map Prod.fst) →
      ((data.foldl processCastEntry (assignments, used)).1).map Prod.fst =
        assignments.map Prod.fst ++ data.map Prod.fst := by
  induction data with
  | nil => intro assignments used _ _; simp
  | cons entry rest ih =>
    intro assignments used hnd hdisj
    rw [List.foldl_cons]
    have hk : entry.1 ∉ assignments.map Prod.fst :=
      hdisj entry.1 (by simp)
    have hkeys : ((processCastEntry (assignments, used) entry).1).map
        Prod.fst = assignments.map Prod.fst ++ [entry.1] := by
      unfold processCastEntry
      exact assocSet_keys_of_not_mem hk
    have hnd' : (rest.map Prod.fst).Nodup := by
      simpa using hnd.of_cons
    have hdisj' : ∀ k ∈ rest.map Prod.fst,
        k ∉ ((processCastEntry (assignments, used) entry).1).map Prod.fst := by
      intro k hkr
      rw [hkeys]
      simp only [List.mem_append, List.mem_singleton]
      rintro (hka | hke)
      · exact hdisj k (by simp [hkr]) hka
      · rw [List.map_cons, List.nodup_cons] at hnd
        exact hnd.1 (hke ▸ hkr)
    have := ih (processCastEntry (assignments, used) entry).1
      (processCastEntry (assignments, used) entry).2 hnd' ?_
    · rw [Prod.mk.eta] at this
      rw [this, hkeys]
      simp
    · exact hdisj'

/-- Keys added by `addLine`: unchanged for a known speaker, appended for a
new one; in both cases old keys are preserved. -/
theorem addLine_keys (acc : List (String × List String)) (sp line : String) :
    (addLine acc sp line).map Prod.fst =
      if sp ∈ acc.map Prod.fst then acc.map Prod.fst
      else acc.map Prod.fst ++ [sp] := by
  unfold addLine
  by_cases hmem : sp ∈ acc.map Prod.fst
  · have hany : acc.any (fun p => p.1 == sp) = true := by
      rw [List.any_eq_true]
      rcases List.mem_map.mp hmem with ⟨p, hp, hsp⟩
      exact ⟨p, hp, beq_iff_eq.mpr hsp⟩
    simp only [hany, if_true, hmem]
    rw [List.map_map]
    apply List.map_congr_left
    intro p _
    by_cases hk : p.1 = sp
    · simp [hk]
    · simp [hk]
  · have hany : acc.any (fun p => p.1 == sp) = false := by
      rw [List.any_eq_false]
      intro p hp
      simp only [beq_iff_eq]
      intro hpk
      exact hmem (List.mem_map.mpr ⟨p, hp, hpk⟩)
    simp [hany, hmem]

/-- The speaker-grouping fold keeps its keys pairwise distinct. -/
theorem speakerData_foldl_nodup (scenes : List Scene) :
    ∀ acc : List (String × List String), (acc.map Prod.fst).Nodup →
      ((scenes.foldl (fun acc sc => addLine acc sc.speaker sc.line)
        acc).map Prod.fst).Nodup := by
  induction scenes with
  | nil => intro acc h; simpa using h
  | cons sc rest ih =>
    intro acc h
    rw [List.foldl_cons]
    refine ih _ ?_
    rw [addLine_keys]
    split
    · exact h
    · next hmem =>
      simp [List.nodup_append, h, hmem]

/-- A name is among the speaker-grouping fold's keys exactly when it is
among the accumulator's keys or the scenes' speakers. -/
theorem speakerData_foldl_mem (scenes : List Scene) :
    ∀ (acc : List (String × List String)) (x : String),
      (x ∈ (scenes.foldl (fun acc sc => addLine acc sc.speaker sc.line)
          acc).map Prod.fst ↔
        x ∈ acc.map Prod.fst ∨ x ∈ scenes.map Scene.speaker) := by
  induction scenes with
  | nil => intro acc x; simp
  | cons sc rest ih =>
    intro acc x
    rw [List.foldl_cons, ih]
    rw [addLine_keys]
    by_cases hmem : sc.speaker ∈ acc.map Prod.fst
    · simp only [hmem, if_true, List.map_cons, List.mem_cons]
      constructor
      · rintro (h | h)
        · exact Or.inl h
        · exact Or.inr (Or.inr h)
      · rintro (h | h | h)
        · exact Or.inl h
        · exact Or.inl (h ▸ hmem)
        · exact Or.inr h
    · simp only [hmem, if_false, List.map_cons, List.mem_cons,
        List.mem_append, List.mem_singleton]
      tauto

/-- The speaker list extracted by `speakerData` has no duplicates. -/
theorem speakerData_keys_nodup (scenes : List Scene) :
    ((speakerData scenes).map Prod.fst).Nodup :=
  speakerData_foldl_nodup scenes [] (by simp)

/-- The speaker list extracted by `speakerData` holds exactly the names
that speak some scene. -/
theorem speakerData_keys_mem (scenes : List Scene) (x : String) :
    x ∈ (speakerData scenes).map Prod.fst ↔
      x ∈ scenes.map Scene.speaker := by
  rw [speakerData, speakerData_foldl_mem]
  simp

/-- The cycling fallback voice is always a real `FALLBACK_VOICES` entry. -/
theorem fallbackVoiceAt_mem (j : Nat) :
    FALLBACK_VOICES.getD (j % FALLBACK_VOICES.length) ⟨"", "", ""⟩ ∈
      FALLBACK_VOICES := by
  have hl : FALLBACK_VOICES.length = 4 := rfl
  have h4 : j % FALLBACK_VOICES.length = 0 ∨ j % FALLBACK_VOICES.length = 1 ∨
      j % FALLBACK_VOICES.length = 2 ∨ j % FALLBACK_VOICES.length = 3 := by
    rw [hl]
    omega
  rcases h4 with h | h | h | h <;> rw [h] <;> decide

/-- Every fallback voice entry has a non-empty voice id (and the fixed
neutral pitch and rate). -/
theorem fallback_voices_wellformed :
    ∀ v ∈ FALLBACK_VOICES, v.voice_id ≠ "" ∧ v.pitch = "+0Hz" ∧
      v.rate = "+0%" := by
  decide

/-- Keys of the fallback-casting fold over an `enumFrom` slice: with
pairwise-distinct speakers disjoint from the accumulator's keys, the fold
appends exactly the speakers, in order. -/
theorem fallback_casting_foldl_keys (speakers : List String) :
    ∀ (i : Nat) (acc : List (String × VoiceSettings)),
      speakers.Nodup →
      (∀ sp ∈ speakers, sp ∉ acc.map Prod.fst) →
      (((speakers.enumFrom i).foldl
        (fun acc p => assocSet acc p.2
          (FALLBACK_VOICES.getD (p.1 % FALLBACK_VOICES.length) ⟨"", "", ""⟩))
        acc).map Prod.fst) = acc.map Prod.fst ++ speakers := by
  induction speakers with
  | nil => intro i acc _ _; simp
  | cons sp rest ih =>
    intro i acc hnd hdisj
    rw [List.enumFrom_cons, List.foldl_cons]
    have hk : sp ∉ acc.map Prod.fst := hdisj sp (by simp)
    have hkeys : (assocSet acc sp
        (FALLBACK_VOICES.getD (i % FALLBACK_VOICES.length)
          ⟨"", "", ""⟩)).map Prod.fst = acc.map Prod.fst ++ [sp] :=
      assocSet_keys_of_not_mem hk
    rw [ih (i + 1) _ hnd.of_cons ?_]
    · rw [hkeys]
      simp
    · intro x hx
      rw [hkeys]
      simp only [List.mem_append, List.mem_singleton]
      rintro (hxa | hxe)
      · exact hdisj x (by simp [hx]) hxa
      · rw [List.nodup_cons] at hnd
        exact hnd.1 (hxe ▸ hx)

/-- Values of the fallback-casting fold are real fallback entries. -/
theorem fallback_casting_foldl_values (speakers : List String) :
    ∀ (i : Nat) (acc : List (String × VoiceSettings)),
      (∀ p ∈ acc, p.2 ∈ FALLBACK_VOICES) →
      ∀ p ∈ ((speakers.enumFrom i).foldl
        (fun acc p => assocSet acc p.2
          (FALLBACK_VOICES.getD (p.1 % FALLBACK_VOICES.length) ⟨"", "", ""⟩))
        acc), p.2 ∈ FALLBACK_VOICES := by
  induction speakers with
  | nil => intro i acc hinv p hp; exact hinv p hp
  | cons sp rest ih =>
    intro i acc hinv p hp
    rw [List.enumFrom_cons, List.foldl_cons] at hp
    refine ih (i + 1) _ ?_ p hp
    intro q hq
    rcases mem_assocSet hq with hq' | hq'
    · rw [hq']
      exact fallbackVoiceAt_mem i
    · exact hinv q hq'

/-- Keys of `fallback_casting` on a duplicate-free speaker list are the
speakers themselves, in order. -/
theorem fallback_casting_keys (speakers : List String)
    (hnd : speakers.Nodup) :
    (fallback_casting speakers).map Prod.fst = speakers := by
  have := fallback_casting_foldl_keys speakers 0 [] hnd (by simp)
  simpa [fallback_casting, List.enum] using this

/-- Every value of `fallback_casting` is a real fallback entry. -/
theorem fallback_casting_values (speakers : List String) :
    ∀ p ∈ fallback_casting speakers, p.2 ∈ FALLBACK_VOICES := by
  have := fallback_casting_foldl_values speakers 0 [] (by simp)
  simpa [fallback_casting, List.enum] using this

/-- The casting node always wraps its computed assignment map in `some`:
the processed collaborator response if non-empty, otherwise the fallback
over the extracted speaker list. -/
theorem casting_director_node_cast_list
    (resp : Option (List (String × RawVoiceData))) (st : GraphState) :
    (casting_director_node resp st).cast_list =
      some (if (llm_select_voices resp).isEmpty then
              fallback_casting ((speakerData (match st.script_json with
                | some sj => sj.scenes
                | none => [])).map Prod.fst)
            else llm_select_voices resp) := rfl

/- ### C3 -/

/-- C3: the claim states that the casting stage output covers every unique
speaker even when the collaborator returns a non-empty but partial
response, a final pass filling the gaps.  The code violates this: no such
pass exists, so with the two-speaker script [Host, Guest] and a response
naming only Host, the output has exactly one key and Guest has no entry. -/
theorem C3_partial_response_leaves_speaker_uncast :
    let st := { sampleInit with
                  script_json :=
                    some ⟨[mkScene "Host" "hi", mkScene "Guest" "yo"]⟩ }
    let out := casting_director_node
      (some [("Host", ⟨some "en-US-GuyNeural", none, none⟩)]) st
    ((speakerData [mkScene "Host" "hi", mkScene "Guest" "yo"]).map
      Prod.fst).length = 2 ∧
    (out.cast_list.getD []).length = 1 ∧
    assocFind (out.cast_list.getD []) "Guest" = none ∧
    "Guest" ∈ [mkScene "Host" "hi", mkScene "Guest" "yo"].map
      Scene.speaker := by
  decide

/-- C3 (as amended): when the collaborator's response is absent,
unusable, or empty, the casting stage's cast assignments have exactly one
key per unique speaker of the script, in order of first appearance; when
the response is non-empty, the stage returns exactly one entry per
response key — speakers the response omits get no entry, as there is no
final gap-filling pass.  In every case the assignment map exists and no
key maps to an empty voice id. -/
theorem C3_amended_casting_key_coverage (st : GraphState) (sj : Script)
    (resp : Option (List (String × RawVoiceData)))
    (hnd : (((resp.getD []).map Prod.fst)).Nodup) :
    let out := casting_director_node resp { st with script_json := some sj }
    let cl := out.cast_list.getD []
    out.cast_list.isSome ∧
    (cl.map Prod.fst = match resp with
      | none => (speakerData sj.scenes).map Prod.fst
      | some data =>
        if data.isEmpty then (speakerData sj.scenes).map Prod.fst
        else data.map Prod.fst) ∧
    ((speakerData sj.scenes).map Prod.fst).Nodup ∧
    (∀ x, x ∈ (speakerData sj.scenes).map Prod.fst ↔
      x ∈ sj.scenes.map Scene.speaker) ∧
    (∀ p ∈ cl, p.2.voice_id ≠ "") := by
  have hval_fb : ∀ p ∈ fallback_casting
      ((speakerData sj.scenes).map Prod.fst), p.2.voice_id ≠ "" := by
    intro p hp
    exact (fallback_voices_wellformed p.2
      (fallback_casting_values _ p hp)).1
  have hkeys_fb : (fallback_casting
      ((speakerData sj.scenes).map Prod.fst)).map Prod.fst =
      (speakerData sj.scenes).map Prod.fst :=
    fallback_casting_keys _ (speakerData_keys_nodup sj.scenes)
  dsimp only
  cases resp with
  | none =>
    rw [casting_director_node_cast_list]
    refine ⟨by simp, ?_, speakerData_keys_nodup sj.scenes,
      fun x => speakerData_keys_mem sj.scenes x, ?_⟩
    · simpa [llm_select_voices] using hkeys_fb
    · simpa [llm_select_voices] using hval_fb
  | some data =>
    cases data with
    | nil =>
      rw [casting_director_node_cast_list]
      refine ⟨by simp, ?_, speakerData_keys_nodup sj.scenes,
        fun x => speakerData_keys_mem sj.scenes x, ?_⟩
      · simpa [llm_select_voices] using hkeys_fb
      · simpa [llm_select_voices] using hval_fb
    | cons e rest =>
      have hnd' : (((e :: rest).map Prod.fst)).Nodup := by
        simpa using hnd
      have hkeys : (llm_select_voices (some (e :: rest))).map Prod.fst =
          (e :: rest).map Prod.fst := by
        have := processCast_foldl_keys (e :: rest) [] [] hnd' (by simp)
        simpa [llm_select_voices] using this
      have hne : (llm_select_voices (some (e :: rest))).isEmpty = false := by
        have hnil : llm_select_voices (some (e :: rest)) ≠ [] := by
          intro hc
          rw [hc] at hkeys
          simp at hkeys
        simpa using hnil
      rw [casting_director_node_cast_list, hne]
      refine ⟨by simp, ?_, speakerData_keys_nodup sj.scenes,
        fun x => speakerData_keys_mem sj.scenes x, ?_⟩
      · simpa using hkeys
      · intro p hp
        have hmem : p.2.voice_id ∈ AVAILABLE_VOICE_IDS := by
          refine processCast_foldl_vids (e :: rest) [] [] (by simp) p ?_
          simpa [llm_select_voices] using hp
        exact available_ids_nonempty _ hmem

/-- Witness for the amended C3 at a concrete input: two speakers, a
response naming Host with a catalog voice and Guest with a bogus voice
id. -/
theorem C3_amended_casting_key_coverage_witness :
    ((((some [("Host", (⟨some "en-US-GuyNeural", none, none⟩ : RawVoiceData)),
        ("Guest", (⟨some "bogus-voice", some "+2Hz", some "+5%"⟩ :
          RawVoiceData))] : Option (List (String × RawVoiceData))).getD
        []).map Prod.fst)).Nodup ∧
    (let out := casting_director_node
      (some [("Host", ⟨some "en-US-GuyNeural", none, none⟩),
             ("Guest", ⟨some "bogus-voice", some "+2Hz", some "+5%"⟩)])
      { sampleInit with
          script_json :=
            some (Script.mk [mkScene "Host" "hi", mkScene "Guest" "yo"]) }
     let cl := out.cast_list.getD []
     out.cast_list.isSome ∧
     (cl.map Prod.fst = match
        (some [("Host", (⟨some "en-US-GuyNeural", none, none⟩ :
            RawVoiceData)),
          ("Guest", (⟨some "bogus-voice", some "+2Hz", some "+5%"⟩ :
            RawVoiceData))] : Option (List (String × RawVoiceData))) with
       | none => (speakerData (Script.mk [mkScene "Host" "hi",
           mkScene "Guest" "yo"]).scenes).map Prod.fst
       | some data =>
         if data.isEmpty then
           (speakerData (Script.mk [mkScene "Host" "hi",
             mkScene "Guest" "yo"]).scenes).map Prod.fst
         else data.map Prod.fst) ∧
     ((speakerData (Script.mk [mkScene "Host" "hi",
        mkScene "Guest" "yo"]).scenes).map Prod.fst).Nodup ∧
     (∀ x, x ∈ (speakerData (Script.mk [mkScene "Host" "hi",
        mkScene "Guest" "yo"]).scenes).map Prod.fst ↔
       x ∈ (Script.mk [mkScene "Host" "hi",
         mkScene "Guest" "yo"]).scenes.map Scene.speaker) ∧
     (∀ p ∈ cl, p.2.voice_id ≠ "")) :=
  ⟨by decide,
   C3_amended_casting_key_coverage sampleInit
     (Script.mk [mkScene "Host" "hi", mkScene "Guest" "yo"])
     (some [("Host", ⟨some "en-US-GuyNeural", none, none⟩),
            ("Guest", ⟨some "bogus-voice", some "+2Hz", some "+5%"⟩)])
     (by decide)⟩

/- ### C6 -/

/-- C6: the claim states that a publish failure matching neither the auth
pattern nor the quota pattern reverts the project status to completed with
the raw error message.  The code violates this: its `except` arm has no
final `else`, so at the failure message "network timeout" (which contains
none of "401", "invalid_grant", "403", "quotaExceeded") the project record
keeps its in-progress uploading status and gets no error message, though
the error is appended to the state log and the credentials stay active. -/
theorem C6_generic_publish_failure_not_reverted :
    let r := handle_upload_failure "network timeout" sampleInit
      ⟨ProjectStatus.uploading_youtube, none⟩ ⟨true⟩
    strContainsSub "network timeout" "401" = false ∧
    strContainsSub (pyLower "network timeout") "invalid_grant" = false ∧
    strContainsSub "network timeout" "403" = false ∧
    strContainsSub (pyLower "network timeout") "quotaExceeded" = false ∧
    r.2.1.status = ProjectStatus.uploading_youtube ∧
    r.2.1.status ≠ ProjectStatus.completed ∧
    r.2.1.error_message = none ∧
    r.1.errors = ["YouTube upload failed: network timeout"] ∧
    r.2.2.is_active = true := by
  decide

/-- C6 (as amended): for every publish failure whose message matches
neither the auth pattern ("401" or lower-cased "invalid_grant") nor the
quota pattern ("403" or lower-cased "quotaExceeded"), the stage appends
exactly one error to the state log and leaves the project record (status
and error message) and the stored credentials entirely unchanged — in
particular it neither marks the project failed nor reverts it to
completed, and does not deactivate the connection. -/
theorem C6_amended_generic_publish_failure_only_logs (e : String)
    (st : GraphState) (proj : ProjectRecord) (conn : ConnectionRecord)
    (h401 : strContainsSub e "401" = false)
    (hgrant : strContainsSub (pyLower e) "invalid_grant" = false)
    (h403 : strContainsSub e "403" = false)
    (hquota : strContainsSub (pyLower e) "quotaExceeded" = false) :
    handle_upload_failure e st proj conn =
      ({ st with errors := st.errors ++ ["YouTube upload failed: " ++ e] },
       proj, conn) := by
  simp [handle_upload_failure, h401, hgrant, h403, hquota]

/-- Witness for the amended C6 at the concrete failure message
"server unreachable". -/
theorem C6_amended_generic_publish_failure_only_logs_witness :
    strContainsSub "server unreachable" "401" = false ∧
    strContainsSub (pyLower "server unreachable") "invalid_grant" = false ∧
    strContainsSub "server unreachable" "403" = false ∧
    strContainsSub (pyLower "server unreachable") "quotaExceeded" = false ∧
    handle_upload_failure "server unreachable" sampleInit
      ⟨ProjectStatus.uploading_youtube, none⟩ ⟨true⟩ =
      ({ sampleInit with
           errors := sampleInit.errors ++
             ["YouTube upload failed: " ++ "server unreachable"] },
       ⟨ProjectStatus.uploading_youtube, none⟩, ⟨true⟩) :=
  ⟨by decide, by decide, by decide, by decide,
   C6_amended_generic_publish_failure_only_logs "server unreachable"
     sampleInit ⟨ProjectStatus.uploading_youtube, none⟩ ⟨true⟩
     (by decide) (by decide) (by decide) (by decide)⟩

/- ### C9 -/

/-- C9: with the casting collaborator always returning an empty response
(modelled as the unparsable response the `except` arm of
`_llm_select_voices` turns into the empty dict), the casting stage's
output is determined by the ordered speaker list extracted from the
script content alone: any two runs, from arbitrary ambient states, whose
scripts yield the same speaker list produce identical cast assignments,
and in particular every speaker looks up to the same voice id, pitch and
rate in both runs. -/
theorem C9_empty_collaborator_fallback_deterministic
    (st1 st2 : GraphState) (sj1 sj2 : Script)
    (h : (speakerData sj1.scenes).map Prod.fst =
         (speakerData sj2.scenes).map Prod.fst) :
    let o1 := casting_director_node none { st1 with script_json := some sj1 }
    let o2 := casting_director_node none { st2 with script_json := some sj2 }
    o1.cast_list = o2.cast_list ∧
    o1.cast_list =
      some (fallback_casting ((speakerData sj1.scenes).map Prod.fst)) ∧
    ∀ sp, assocFind (o1.cast_list.getD []) sp =
          assocFind (o2.cast_list.getD []) sp := by
  have h1 : (casting_director_node none
      { st1 with script_json := some sj1 }).cast_list =
      some (fallback_casting ((speakerData sj1.scenes).map Prod.fst)) := by
    simp [casting_director_node, llm_select_voices]
  have h2 : (casting_director_node none
      { st2 with script_json := some sj2 }).cast_list =
      some (fallback_casting ((speakerData sj2.scenes).map Prod.fst)) := by
    simp [casting_director_node, llm_select_voices]
  refine ⟨?_, h1, ?_⟩
  · rw [h1, h2, h]
  · intro sp
    rw [h1, h2, h]

/-- Witness for C9 at concrete inputs: two different ambient states and
two different scripts (different lines, different scene counts) with the
same speaker list [Host, Guest]. -/
theorem C9_empty_collaborator_fallback_deterministic_witness :
    ((speakerData [mkScene "Host" "hi", mkScene "Guest" "yo"]).map
        Prod.fst =
      (speakerData [mkScene "Host" "other", mkScene "Guest" "words",
        mkScene "Host" "more"]).map Prod.fst) ∧
    (let o1 := casting_director_node none
      { sampleInit with
          script_json :=
            some (Script.mk [mkScene "Host" "hi", mkScene "Guest" "yo"]) }
     let o2 := casting_director_node none
      { { sampleInit with errors := ["earlier failure"] } with
          script_json :=
            some (Script.mk [mkScene "Host" "other", mkScene "Guest" "words",
              mkScene "Host" "more"]) }
     o1.cast_list = o2.cast_list ∧
     o1.cast_list = some (fallback_casting
       ((speakerData [mkScene "Host" "hi", mkScene "Guest" "yo"]).map
         Prod.fst)) ∧
     ∀ sp, assocFind (o1.cast_list.getD []) sp =
           assocFind (o2.cast_list.getD []) sp) :=
  ⟨by decide,
   C9_empty_collaborator_fallback_deterministic sampleInit
     { sampleInit with errors := ["earlier failure"] }
     ⟨[mkScene "Host" "hi", mkScene "Guest" "yo"]⟩
     ⟨[mkScene "Host" "other", mkScene "Guest" "words",
       mkScene "Host" "more"]⟩ (by decide)⟩

end Faceless
